import Mathlib

/-!
Verification of the `compensated-summation` crate (`src/lib.rs`, `src/dev.rs`).

The crate is generic over `T: num_traits::float::Float`, instantiated in all
of its tests and documentation at IEEE-754 binary64 (`f64`).  We therefore
embed the arithmetic in an executable model of binary64: values are NaN,
signed infinities, signed zeros, or canonical finite nonzero numbers
`(-1)^sign * m * 2^e` with `2^52 <= m < 2^53` for normal numbers (or
`e = -1074` for subnormals), `-1074 <= e <= 971`.  Addition rounds the exact
sum to nearest, ties to even, overflowing to infinity, following IEEE-754
round-to-nearest-even (results that are exactly zero by cancellation get sign
`+`; zero operands follow the IEEE sign rules for zeros).  Subtraction is
addition of the negation, which is exact in IEEE-754.  All arithmetic is
performed exactly on integers (every intermediate quantity is a fraction of
integers), so every operation is executable and concrete claims can be
settled by `decide`; the bridge to arbitrary-precision values used in the
exactness claims is `F.toRat`.
-/

set_option maxRecDepth 20000
set_option maxHeartbeats 4000000
set_option linter.unreachableTactic false
set_option linter.unusedTactic false

/-- Binary64 floating-point values: NaN, infinities, signed zeros, and finite
nonzero numbers `(-1)^sign * m * 2^e` (the `Bool` flag is the sign bit). -/
inductive F : Type where
  | nan : F
  | inf : Bool → F
  | zero : Bool → F
  | finite : Bool → ℕ → ℤ → F
deriving DecidableEq

/-- Base-two logarithm on naturals with explicit fuel, so that the kernel can
evaluate it by structural recursion (in chunks of 64 bits to keep the
recursion shallow); `log2f fuel n` is the floor of the base-2 logarithm of
`n` whenever `1 ≤ n < 2 ^ (64 * fuel)`. -/
def log2f : ℕ → ℕ → ℕ
  | 0, _ => 0
  | f + 1, n =>
    if 18446744073709551616 ≤ n then log2f f (n / 18446744073709551616) + 64
    else if 2 ≤ n then log2f f (n / 2) + 1
    else 0

/-- Whether `n / d < 2 ^ g` for naturals `n`, `d` (with `d ≠ 0`) and an
integer exponent `g`, decided by scaling to natural numbers. -/
def ltPow2 (n d : ℕ) (g : ℤ) : Bool :=
  if 0 ≤ g then decide (n < d * 2 ^ g.toNat) else decide (n * 2 ^ (-g).toNat < d)

/-- Floor of the base-two logarithm of the positive rational `n / d`: a
fueled first guess from numerator and denominator, corrected by exact
comparisons (the guess is off by at most one). -/
def ilog2p (n d : ℕ) : ℤ :=
  let g : ℤ := (log2f 200 n : ℤ) - (log2f 200 d : ℤ)
  if ltPow2 n d g then g - 1
  else if ltPow2 n d (g + 1) then g
  else g + 1

/-- Round the nonnegative rational `n / d` (`d ≠ 0`) to the nearest natural
number, ties to even. -/
def rneP (n d : ℕ) : ℕ :=
  let f := n / d
  let r := n % d
  if 2 * r < d then f
  else if d < 2 * r then f + 1
  else if f % 2 = 0 then f else f + 1

/-- Round the value `(-1)^sgn * n / d` (`d ≠ 0`) to binary64, nearest, ties
to even (IEEE-754 default): choose the exponent `e` of the ulp grid (clamped
below at the subnormal exponent `-1074`), round the scaled magnitude to an
integer mantissa, renormalize a mantissa carry, and overflow to infinity
beyond the largest finite value.  A positive magnitude that rounds to zero
keeps the sign `sgn` (IEEE-754 sign rule for inexact underflow to zero); an
exact zero numerator gives `+0`. -/
def roundPos (sgn : Bool) (n d : ℕ) : F :=
  if n = 0 then F.zero false
  else
    let e : ℤ := max (-1074) (ilog2p n d - 52)
    let m : ℕ := if 0 ≤ e then rneP n (d * 2 ^ e.toNat) else rneP (n * 2 ^ (-e).toNat) d
    if m = 0 then F.zero sgn
    else if m = 9007199254740992 then
      if 971 < e + 1 then F.inf sgn else F.finite sgn 4503599627370496 (e + 1)
    else if 971 < e then F.inf sgn
    else F.finite sgn m e

/-- Round the rational `num / den` (`den ≠ 0`) to binary64. -/
def roundQ (num : ℤ) (den : ℕ) : F :=
  roundPos (decide (num < 0)) num.natAbs den

/-- Signed integer mantissa of a zero or finite value (zeros of either sign
have mantissa 0); junk value 0 for NaN and infinities. -/
def F.sgnM : F → ℤ
  | F.finite s m _ => if s then -(m : ℤ) else (m : ℤ)
  | _ => 0

/-- Ulp exponent of a finite value; junk value 0 for the rest. -/
def F.expE : F → ℤ
  | F.finite _ _ e => e
  | _ => 0

/-- Exact rational value of a finite float (0 for NaN and infinities):
the bridge to the arbitrary-precision reconstruction used by the spec. -/
def F.toRat (x : F) : ℚ := (x.sgnM : ℚ) * (2 : ℚ) ^ x.expE

/-- IEEE-754 negation (sign-bit flip). -/
def F.neg : F → F
  | F.nan => F.nan
  | F.inf s => F.inf (!s)
  | F.zero s => F.zero (!s)
  | F.finite s m e => F.finite (!s) m e

/-- IEEE-754 absolute value (sign-bit clear). -/
def F.abs : F → F
  | F.nan => F.nan
  | F.inf _ => F.inf false
  | F.zero _ => F.zero false
  | F.finite _ m e => F.finite false m e

/-- Whether a value is finite (a zero or a finite nonzero number). -/
def F.isFinite : F → Bool
  | F.zero _ => true
  | F.finite _ _ _ => true
  | _ => false

/-- Exact order comparison of two dyadic values `M1 * 2^E1 ≤ M2 * 2^E2`,
by aligning the exponents. -/
def dyLe (M1 E1 M2 E2 : ℤ) : Bool :=
  decide (M1 * ((2 ^ (E1 - min E1 E2).toNat : ℕ) : ℤ) ≤ M2 * ((2 ^ (E2 - min E1 E2).toNat : ℕ) : ℤ))

/-- Exact equality of two dyadic values `M1 * 2^E1 = M2 * 2^E2`. -/
def dyEq (M1 E1 M2 E2 : ℤ) : Bool :=
  decide (M1 * ((2 ^ (E1 - min E1 E2).toNat : ℕ) : ℤ) = M2 * ((2 ^ (E2 - min E1 E2).toNat : ℕ) : ℤ))

/-- IEEE-754 addition on the model: NaN propagates, opposite infinities give
NaN, a zero operand returns the other operand (with `(-0) + (-0) = -0` and
otherwise `+0` when both operands are zeros), and finite nonzero operands
round the exact sum — computed exactly as a dyadic integer — to nearest,
ties to even (an exact cancellation gives `+0`). -/
def fadd : F → F → F
  | F.nan, _ => F.nan
  | _, F.nan => F.nan
  | F.inf s, F.inf t => if s = t then F.inf s else F.nan
  | F.inf s, _ => F.inf s
  | _, F.inf t => F.inf t
  | F.zero s, F.zero t => F.zero (s && t)
  | F.zero _, b => b
  | a, F.zero _ => a
  | a, b =>
    let emin := min a.expE b.expE
    let M : ℤ := a.sgnM * ((2 ^ (a.expE - emin).toNat : ℕ) : ℤ) +
      b.sgnM * ((2 ^ (b.expE - emin).toNat : ℕ) : ℤ)
    if M = 0 then F.zero false
    else if 0 ≤ emin then roundQ (M * ((2 ^ emin.toNat : ℕ) : ℤ)) 1
    else roundQ M (2 ^ (-emin).toNat)

/-- IEEE-754 subtraction: addition of the negation (exact in IEEE-754). -/
def fsub (a b : F) : F := fadd a (F.neg b)

/-- IEEE-754 comparison `a <= b` (false whenever an operand is NaN; zeros of
both signs are equal). -/
def fle : F → F → Bool
  | F.nan, _ => false
  | _, F.nan => false
  | F.inf true, _ => true
  | _, F.inf false => true
  | F.inf false, _ => false
  | _, F.inf true => false
  | a, b => dyLe a.sgnM a.expE b.sgnM b.expE

/-- IEEE-754 comparison `a >= b` (false whenever an operand is NaN). -/
def fge (a b : F) : Bool := fle b a

/-- IEEE-754 equality `a == b`: NaN compares unequal to everything,
`-0 == +0`. -/
def feq : F → F → Bool
  | F.nan, _ => false
  | _, F.nan => false
  | F.inf s, F.inf t => s = t
  | F.inf _, _ => false
  | _, F.inf _ => false
  | a, b => dyEq a.sgnM a.expE b.sgnM b.expE

/-- The `two_sum` function of `src/lib.rs` (`2Sum` algorithm, six operations). -/
def two_sum (a b : F) : F × F :=
  let s := fadd a b
  let a1 := fsub s b
  let b1 := fsub s a1
  let da := fsub a a1
  let db := fsub b b1
  (s, fadd da db)

/-- The private `two_sub` function of `src/lib.rs`. -/
def two_sub (a b : F) : F × F :=
  let s := fsub a b
  let a1 := fadd s b
  let b1 := fsub a1 s
  let da := fsub a a1
  let db := fsub b b1
  (s, fsub da db)

/-- The `fast_two_sum` function of `src/lib.rs` (`Fast2Sum`, three operations). -/
def fast_two_sum (a b : F) : F × F :=
  let s := fadd a b
  let b1 := fsub s a
  (s, fsub b b1)

/-- The `abs_two_sum` function of `src/dev.rs`: `two_sum` with an explicit
magnitude comparison choosing which operand's residual to compute. -/
def abs_two_sum (a b : F) : F × F :=
  let s := fadd a b
  (s, if fge (F.abs a) (F.abs b) then fsub b (fsub s a) else fsub a (fsub s b))

/-- The `KahanBabuska` accumulator of `src/lib.rs`. -/
structure KahanBabuska : Type where
  sum : F
  comp : F
deriving DecidableEq

/-- `KahanBabuska::new()`. -/
def KahanBabuska.new : KahanBabuska := ⟨F.zero false, F.zero false⟩

/-- `KahanBabuska::total()`. -/
def KahanBabuska.total (k : KahanBabuska) : F := fadd k.sum k.comp

/-- `impl AddAssign<T> for KahanBabuska`: `fast_two_sum(self.sum, rhs + self.comp)`. -/
def KahanBabuska.add_assign (k : KahanBabuska) (rhs : F) : KahanBabuska :=
  let p := fast_two_sum k.sum (fadd rhs k.comp)
  ⟨p.1, p.2⟩

/-- `impl SubAssign<T> for KahanBabuska`: `fast_two_sum(self.sum, self.comp - rhs)`. -/
def KahanBabuska.sub_assign (k : KahanBabuska) (rhs : F) : KahanBabuska :=
  let p := fast_two_sum k.sum (fsub k.comp rhs)
  ⟨p.1, p.2⟩

/-- `impl Sum for KahanBabuska`: fold `+=` over the sequence from `new()`. -/
def KahanBabuska.sumList (l : List F) : KahanBabuska :=
  l.foldl KahanBabuska.add_assign KahanBabuska.new

/-- The `KahanBabuskaNeumaier` accumulator of `src/lib.rs`. -/
structure KahanBabuskaNeumaier : Type where
  sum : F
  comp : F
deriving DecidableEq

/-- `KahanBabuskaNeumaier::new()`. -/
def KahanBabuskaNeumaier.new : KahanBabuskaNeumaier := ⟨F.zero false, F.zero false⟩

/-- `KahanBabuskaNeumaier::total()`. -/
def KahanBabuskaNeumaier.total (k : KahanBabuskaNeumaier) : F := fadd k.sum k.comp

/-- `impl AddAssign<T> for KahanBabuskaNeumaier`: `two_sum(self.sum, rhs)`,
compensation accumulated additively. -/
def KahanBabuskaNeumaier.add_assign (k : KahanBabuskaNeumaier) (rhs : F) :
    KahanBabuskaNeumaier :=
  let p := two_sum k.sum rhs
  ⟨p.1, fadd k.comp p.2⟩

/-- `impl SubAssign<T> for KahanBabuskaNeumaier`: `two_sub(self.sum, rhs)`. -/
def KahanBabuskaNeumaier.sub_assign (k : KahanBabuskaNeumaier) (rhs : F) :
    KahanBabuskaNeumaier :=
  let p := two_sub k.sum rhs
  ⟨p.1, fadd k.comp p.2⟩

/-- `impl Sum for KahanBabuskaNeumaier`: fold `+=` over the sequence. -/
def KahanBabuskaNeumaier.sumList (l : List F) : KahanBabuskaNeumaier :=
  l.foldl KahanBabuskaNeumaier.add_assign KahanBabuskaNeumaier.new

/-- `dev::kahan_babuska_sum` of `src/dev.rs` (explicit-loop KB formulation). -/
def kahan_babuska_sum (l : List F) : F :=
  let p := l.foldl
    (fun (sc : F × F) x =>
      let y := fadd x sc.2
      let t := fadd sc.1 y
      (t, fsub y (fsub t sc.1)))
    (F.zero false, F.zero false)
  fadd p.1 p.2

/-- `dev::kahan_babuska_neumaier_sum` of `src/dev.rs` (explicit-loop KBN). -/
def kahan_babuska_neumaier_sum (l : List F) : F :=
  let p := l.foldl
    (fun (sc : F × F) x =>
      let td := two_sum sc.1 x
      (td.1, fadd sc.2 td.2))
    (F.zero false, F.zero false)
  fadd p.1 p.2

/-- `dev::kahan_babuska_neumaier_abs_sum` of `src/dev.rs` (KBN loop using an
absolute-value comparison for the residual). -/
def kahan_babuska_neumaier_abs_sum (l : List F) : F :=
  let p := l.foldl
    (fun (sc : F × F) x =>
      let t := fadd sc.1 x
      let c :=
        if fge (F.abs sc.1) (F.abs x) then fadd sc.2 (fsub x (fsub t sc.1))
        else fadd sc.2 (fsub sc.1 (fsub t x))
      (t, c))
    (F.zero false, F.zero false)
  fadd p.1 p.2

/-- `dev::kahan_babuska_neumaier_abs_two_sum` of `src/dev.rs` (KBN loop
using `abs_two_sum`). -/
def kahan_babuska_neumaier_abs_two_sum (l : List F) : F :=
  let p := l.foldl
    (fun (sc : F × F) x =>
      let td := abs_two_sum sc.1 x
      (td.1, fadd sc.2 td.2))
    (F.zero false, F.zero false)
  fadd p.1 p.2

/-! ### Concrete values used in the claims -/

/-- The largest finite binary64 value, `f64::MAX` `= (2^53 - 1) * 2^971`. -/
def fmax : F := F.finite false 9007199254740991 971

/-- The value `-(2^53 - 5) * 2^970` (finite, representable). -/
def bBad : F := F.finite true 9007199254740987 970

/-- The value `(2^53 - 5) * 2^970` (finite, representable). -/
def bPos : F := F.finite false 9007199254740987 970

/-- The value `(2^52 + 2) * 2^971 = fl(fmax + bBad)` (finite). -/
def sBad : F := F.finite false 4503599627370498 971

/-- The binary64 value `1.0`. -/
def oneF : F := F.finite false 4503599627370496 (-52)

set_option exponentiation.threshold 5000

/-! ### Helper lemmas -/

theorem fneg_fin (s : Bool) (m : ℕ) (e : ℤ) :
    F.neg (F.finite s m e) = F.finite (!s) m e := rfl

theorem fneg_zero (s : Bool) : F.neg (F.zero s) = F.zero (!s) := rfl

theorem fadd_zero_zero (s t : Bool) :
    fadd (F.zero s) (F.zero t) = F.zero (s && t) := rfl

theorem fadd_zero_fin (t s : Bool) (m : ℕ) (e : ℤ) :
    fadd (F.zero t) (F.finite s m e) = F.finite s m e := rfl

theorem fadd_fin_zero (s : Bool) (m : ℕ) (e : ℤ) (t : Bool) :
    fadd (F.finite s m e) (F.zero t) = F.finite s m e := rfl

theorem fadd_fin_neg_self (s : Bool) (m : ℕ) (e : ℤ) :
    fadd (F.finite s m e) (F.finite (!s) m e) = F.zero false := by
  cases s <;> simp [fadd, F.sgnM, F.expE]

theorem feq_refl_fin (s : Bool) (m : ℕ) (e : ℤ) :
    feq (F.finite s m e) (F.finite s m e) = true := by
  simp [feq, dyEq]

theorem feq_zero_zero (s t : Bool) : feq (F.zero s) (F.zero t) = true := by
  cases s <;> cases t <;> rfl

theorem fadd_comm (a b : F) : fadd a b = fadd b a := by
  cases a <;> cases b <;> try rfl
  case inf.inf s t => cases s <;> cases t <;> rfl
  case zero.zero s t => cases s <;> cases t <;> rfl
  case finite.finite s m e t n f =>
    simp only [fadd]
    rw [min_comm, add_comm]

/-! ### Claim theorems -/

/-- Claim C1: the spec asserts that for finite `a`, `b` with `a + b` not
overflowing, `two_sum(a,b) = (s,t)` has `s = fl(a+b)` and `a + b = s + t`
exactly.  At `a = f64::MAX` and `b = -(2^53 - 5) * 2^970` the rounded sum
`fl(a+b)` is the finite value `sBad` (no overflow), yet the intermediate
`s - b = 2^1024 - 2^970` rounds (tie to even) to `+∞`, so `two_sum` returns
`t = NaN` — a spurious intermediate overflow — and the error-free identity
fails: `t` being NaN, no reconstruction `s + t` equals `a + b` (in
particular `s` alone differs from the exact sum, as the last conjunct
states with arbitrary-precision rationals). -/
theorem two_sum_spurious_overflow :
    fadd fmax bBad = sBad ∧
    two_sum fmax bBad = (sBad, F.nan) ∧
    F.toRat fmax + F.toRat bBad ≠ F.toRat sBad := by
  refine ⟨by decide, by decide, ?_⟩
  simp only [fmax, bBad, sBad, F.toRat, F.sgnM, F.expE, Bool.false_eq_true,
    ite_false, ite_true]
  norm_num

/-- Claim C2: the spec asserts `fast_two_sum(a,b)` is bitwise identical to
`two_sum(a,b)` whenever `|a| ≥ |b|`.  At `a = f64::MAX`,
`b = -(2^53 - 5) * 2^970` (which satisfies `|a| ≥ |b|`), `fast_two_sum`
returns the exact error `-2^970` while `two_sum` suffers a spurious
intermediate overflow and returns `NaN`, so the pairs differ (even under
IEEE `==`, since NaN is involved). -/
theorem fast_two_sum_ne_two_sum_spurious_overflow :
    fge (F.abs fmax) (F.abs bBad) = true ∧
    fast_two_sum fmax bBad = (sBad, roundQ (-((2 ^ 970 : ℕ) : ℤ)) 1) ∧
    two_sum fmax bBad = (sBad, F.nan) ∧
    fast_two_sum fmax bBad ≠ two_sum fmax bBad := by decide

/-- Claim C3: the spec asserts the accumulator totals are bitwise identical
to every free-function formulation on every finite sequence.  On the
two-element finite sequence `[f64::MAX, -(2^53 - 5) * 2^970]` the
`KahanBabuskaNeumaier` accumulator (and the matching
`kahan_babuska_neumaier_sum` loop) produce `NaN` via `two_sum`'s spurious
intermediate overflow, while the comparison-based
`kahan_babuska_neumaier_abs_sum` and `kahan_babuska_neumaier_abs_two_sum`
produce the finite value `sBad`; the KahanBabuska/`kahan_babuska_sum` pair
still agrees on this input. -/
theorem kbn_formulations_disagree :
    (KahanBabuska.sumList [fmax, bBad]).total = kahan_babuska_sum [fmax, bBad] ∧
    (KahanBabuskaNeumaier.sumList [fmax, bBad]).total = F.nan ∧
    kahan_babuska_neumaier_sum [fmax, bBad] = F.nan ∧
    kahan_babuska_neumaier_abs_sum [fmax, bBad] = sBad ∧
    kahan_babuska_neumaier_abs_two_sum [fmax, bBad] = sBad ∧
    (KahanBabuskaNeumaier.sumList [fmax, bBad]).total ≠
      kahan_babuska_neumaier_abs_sum [fmax, bBad] := by decide

/-- Claim C4: the spec asserts `abs_two_sum(a,b)` is bitwise identical to
`two_sum(a,b)` for all finite pairs.  At `a = f64::MAX`,
`b = -(2^53 - 5) * 2^970`, `abs_two_sum` takes the `a`-dominant branch and
returns the exact error `-2^970`, while `two_sum`'s intermediate `s - b`
overflows spuriously and it returns `NaN`: the pairs differ. -/
theorem abs_two_sum_ne_two_sum_spurious_overflow :
    abs_two_sum fmax bBad = (sBad, roundQ (-((2 ^ 970 : ℕ) : ℤ)) 1) ∧
    two_sum fmax bBad = (sBad, F.nan) ∧
    abs_two_sum fmax bBad ≠ two_sum fmax bBad := by decide

/-- Claim C5: the spec asserts `two_sub(a,b)` is bitwise identical to
`two_sum(a,-b)` and that the returned pair satisfies `a - b = s + t`
exactly.  At `a = f64::MAX`, `b = (2^53 - 5) * 2^970` the intermediate
`aʹ = s + b` overflows spuriously, `two_sub` returns `t = NaN`, and the
exact identity fails (the exact `a - b` differs from `s`, and `t` is NaN).
Moreover at `a = -0.0`, `b = 1.0` the result of `two_sub` is
`(-1.0, -0.0)` while `two_sum(a,-b)` is `(-1.0, +0.0)`: bitwise different
(though equal under IEEE `==`). -/
theorem two_sub_not_exact_and_not_bitwise :
    two_sub fmax bPos = (sBad, F.nan) ∧
    F.toRat fmax - F.toRat bPos ≠ F.toRat sBad ∧
    two_sub (F.zero true) oneF = (F.neg oneF, F.zero true) ∧
    two_sum (F.zero true) (F.neg oneF) = (F.neg oneF, F.zero false) ∧
    two_sub (F.zero true) oneF ≠ two_sum (F.zero true) (F.neg oneF) := by
  refine ⟨by decide, ?_, by decide, by decide, by decide⟩
  simp only [fmax, bPos, sBad, F.toRat, F.sgnM, F.expE, Bool.false_eq_true,
    ite_false, ite_true]
  norm_num

/-- Claim C6: for every `KahanBabuska` state and every value `x` (finite or
not), `subtract(x)` — that is, `fast_two_sum(sum, comp - x)` — produces a
state bitwise identical to `add(-x)` — that is,
`fast_two_sum(sum, (-x) + comp)`: IEEE subtraction is addition of the
negation, and IEEE addition is commutative (including the zero-sign and
NaN/infinity cases). -/
theorem kahan_babuska_sub_eq_add_neg (k : KahanBabuska) (x : F) :
    k.sub_assign x = k.add_assign (F.neg x) := by
  simp only [KahanBabuska.sub_assign, KahanBabuska.add_assign, fsub]
  rw [fadd_comm]

/-- Claim C7: reducing `[1.0, 1e100, 1.0, -1e100]` yields `total() = 0.0`
through `KahanBabuska` (the two unit terms are lost) and `total() = 2.0`
through `KahanBabuskaNeumaier` (they are recovered). -/
theorem kb_vs_kbn_large_cancellation :
    (KahanBabuska.sumList
      [roundQ 1 1, roundQ ((10 ^ 100 : ℕ) : ℤ) 1, roundQ 1 1, roundQ (-((10 ^ 100 : ℕ) : ℤ)) 1]).total =
      F.zero false ∧
    (KahanBabuskaNeumaier.sumList
      [roundQ 1 1, roundQ ((10 ^ 100 : ℕ) : ℤ) 1, roundQ 1 1, roundQ (-((10 ^ 100 : ℕ) : ℤ)) 1]).total =
      roundQ 2 1 := by decide

/-- Claim C8: adding the doubles `0.1`, `0.2`, `-0.3` in order to an empty
`KahanBabuska` accumulator yields `sum = 0.0`, `comp = 0.0` and
`total() = 0.0` exactly; the same three values through
`KahanBabuskaNeumaier` yield `total() = EPSILON / 8 = 2^(-55)`. -/
theorem kb_kbn_small_cancellation :
    (KahanBabuska.sumList [roundQ 1 10, roundQ 2 10, roundQ (-3) 10]).sum =
      F.zero false ∧
    (KahanBabuska.sumList [roundQ 1 10, roundQ 2 10, roundQ (-3) 10]).comp =
      F.zero false ∧
    (KahanBabuska.sumList [roundQ 1 10, roundQ 2 10, roundQ (-3) 10]).total =
      F.zero false ∧
    (KahanBabuskaNeumaier.sumList [roundQ 1 10, roundQ 2 10, roundQ (-3) 10]).total =
      roundQ 1 36028797018963968 := by decide

/-- Claim C9: adding one finite value `x` to a freshly created accumulator
of either kind yields a state with `sum == x` and `comp == 0` (IEEE `==`,
which identifies `-0.0` and `+0.0`), hence `total() == x`. -/
theorem single_add_exact (x : F) (h : x.isFinite = true) :
    feq (KahanBabuska.new.add_assign x).sum x = true ∧
    feq (KahanBabuska.new.add_assign x).comp (F.zero false) = true ∧
    feq (KahanBabuska.new.add_assign x).total x = true ∧
    feq (KahanBabuskaNeumaier.new.add_assign x).sum x = true ∧
    feq (KahanBabuskaNeumaier.new.add_assign x).comp (F.zero false) = true ∧
    feq (KahanBabuskaNeumaier.new.add_assign x).total x = true := by
  cases x with
  | nan => simp [F.isFinite] at h
  | inf s => simp [F.isFinite] at h
  | zero s => cases s <;> decide
  | finite s m e =>
      simp only [KahanBabuska.new, KahanBabuska.add_assign, KahanBabuska.total,
        KahanBabuskaNeumaier.new, KahanBabuskaNeumaier.add_assign,
        KahanBabuskaNeumaier.total, fast_two_sum, two_sum, fsub, fneg_fin,
        fneg_zero, fadd_zero_zero, fadd_zero_fin, fadd_fin_zero,
        fadd_fin_neg_self, Bool.not_false, Bool.not_true, Bool.and_false,
        Bool.and_true, Bool.false_and, Bool.true_and, feq_refl_fin,
        feq_zero_zero, and_self]

/-- Witness for claim C9 at the concrete finite input `x = 1.0`. -/
theorem single_add_exact_witness :
    oneF.isFinite = true ∧
    (feq (KahanBabuska.new.add_assign oneF).sum oneF = true ∧
    feq (KahanBabuska.new.add_assign oneF).comp (F.zero false) = true ∧
    feq (KahanBabuska.new.add_assign oneF).total oneF = true ∧
    feq (KahanBabuskaNeumaier.new.add_assign oneF).sum oneF = true ∧
    feq (KahanBabuskaNeumaier.new.add_assign oneF).comp (F.zero false) = true ∧
    feq (KahanBabuskaNeumaier.new.add_assign oneF).total oneF = true) :=
  ⟨by decide, single_add_exact oneF (by decide)⟩

/-- Claim C10: adding a single infinity to a fresh accumulator of either
kind leaves that infinity in `sum` but `NaN` in `comp` (the error-recovery
step computes `∞ - ∞`), so `total()` is `NaN` rather than the infinity. -/
theorem inf_add_gives_nan_comp :
    (KahanBabuska.new.add_assign (F.inf false)).sum = F.inf false ∧
    (KahanBabuska.new.add_assign (F.inf false)).comp = F.nan ∧
    (KahanBabuska.new.add_assign (F.inf false)).total = F.nan ∧
    (KahanBabuska.new.add_assign (F.inf true)).sum = F.inf true ∧
    (KahanBabuska.new.add_assign (F.inf true)).comp = F.nan ∧
    (KahanBabuska.new.add_assign (F.inf true)).total = F.nan ∧
    (KahanBabuskaNeumaier.new.add_assign (F.inf false)).sum = F.inf false ∧
    (KahanBabuskaNeumaier.new.add_assign (F.inf false)).comp = F.nan ∧
    (KahanBabuskaNeumaier.new.add_assign (F.inf false)).total = F.nan ∧
    (KahanBabuskaNeumaier.new.add_assign (F.inf true)).sum = F.inf true ∧
    (KahanBabuskaNeumaier.new.add_assign (F.inf true)).comp = F.nan ∧
    (KahanBabuskaNeumaier.new.add_assign (F.inf true)).total = F.nan := by decide
